import Mathlib

/-!
Verification of the robocup-rl-experiments simulation/task layer.

The Python sources are embedded shallowly over `ℚ`:
* `Collect` models `robocup_env/envs/collect.py` (`task_reset`, `task_logic`)
  with the field constants of `robocup_env/envs/base/constants.py`
  (`FIELD_SCALE = 1/2`).
* `RC` models `robocup.py` (friction, capture state machine, `shoot`, `step`).
* `Seeding` models the random-source plumbing of `robocup.py`
  (`seed`, `VelocitySpace.sample`, `reset`).
-/

namespace Collect

/-- `FIELD_SCALE = 1 / 2` from `robocup_env/envs/base/constants.py`. -/
def FIELD_SCALE : ℚ := 1 / 2

/-- `FIELD_MIN_X = -4.0 * FIELD_SCALE`. -/
def FIELD_MIN_X : ℚ := -4 * FIELD_SCALE

/-- `FIELD_MAX_X = 4.0 * FIELD_SCALE`. -/
def FIELD_MAX_X : ℚ := 4 * FIELD_SCALE

/-- `FIELD_MIN_Y = -2.5 * FIELD_SCALE`. -/
def FIELD_MIN_Y : ℚ := -(5 / 2) * FIELD_SCALE

/-- `FIELD_MAX_Y = 2.5 * FIELD_SCALE`. -/
def FIELD_MAX_Y : ℚ := (5 / 2) * FIELD_SCALE

/-- The ball-related slice of `self.state` touched by
`RoboCupCollect.task_reset`: indices `BALL_X`, `BALL_Y`, `BALL_DX`, `BALL_DY`
of the 11-dimensional state vector.  The remaining dimensions are read and
written by neither branch of `task_reset` and are omitted. -/
structure BallVec where
  x : ℚ
  y : ℚ
  dx : ℚ
  dy : ℚ
deriving DecidableEq

/-- The `# Left` block of `task_reset` (collect.py lines 46-50), with
`buffer = 1.0` and `speed_lim = 0.3` inlined; `np.clip (v, -speed_lim,
np.inf)` is `max v (-speed_lim)`. -/
def left_clip (s : BallVec) : BallVec :=
  if s.x ≤ FIELD_MIN_X + 1 then
    let t := if s.dx < 0 then { s with x := FIELD_MIN_X + 1 } else s
    { t with dx := max t.dx (-(3/10)) }
  else s

/-- The `# Right` block of `task_reset` (collect.py lines 51-55);
`np.clip (v, -np.inf, speed_lim)` is `min v speed_lim`. -/
def right_clip (s : BallVec) : BallVec :=
  if s.x ≥ FIELD_MAX_X - 1 then
    let t := if s.dx > 0 then { s with x := FIELD_MAX_X - 1 } else s
    { t with dx := min t.dx (3/10) }
  else s

/-- The `# Down` block of `task_reset` (collect.py lines 57-61). -/
def down_clip (s : BallVec) : BallVec :=
  if s.y ≤ FIELD_MIN_Y + 1 then
    let t := if s.dy < 0 then { s with y := FIELD_MIN_Y + 1 } else s
    { t with dy := max t.dy (-(3/10)) }
  else s

/-- The `# Up` block of `task_reset` (collect.py lines 62-66). -/
def up_clip (s : BallVec) : BallVec :=
  if s.y ≥ FIELD_MAX_Y - 1 then
    let t := if s.dy > 0 then { s with y := FIELD_MAX_Y - 1 } else s
    { t with dy := min t.dy (3/10) }
  else s

/-- The final clips of `task_reset` (collect.py lines 68-70):
`total_speed_lim = 1.0` applied to both velocity components. -/
def total_clip (s : BallVec) : BallVec :=
  let t := { s with dx := min (max s.dx (-1)) 1 }
  { t with dy := min (max t.dy (-1)) 1 }

/-- `RoboCupCollect.task_reset` (collect.py lines 43-70): the four edge
blocks in source order, then the total speed clips. -/
def task_reset (s : BallVec) : BallVec :=
  total_clip (up_clip (down_clip (right_clip (left_clip s))))

/-- The reward coefficients of `CollectConfig` (collect.py lines 15-31)
together with the two coefficients `move_reward` and `turn_penalty` that
`task_logic` reads from the inherited `BaseRewardConfig`
(`robocup_env/envs/base/robocup_configs.py`, not under `src/`); all are
plain scalar fields. -/
structure CollectConfig where
  dribble_count_done : ℕ
  dribbling_reward : ℚ
  done_reward_additive : ℚ
  done_reward_coeff : ℚ
  done_reward_exp_base : ℚ
  ball_out_of_bounds_reward : ℚ
  survival_reward : ℚ
  distance_to_ball_coeff : ℚ
  move_reward : ℚ
  turn_penalty : ℚ
deriving DecidableEq

/-- The data `RoboCupCollect.task_logic` reads besides the config:
`aux_state.dribbling_count`, `aux_state.dribbling`, `self.timestep`,
`self.config.max_timesteps`, the robot-to-ball Euclidean distance `dist`
(`np.sqrt ((rx-bx)^2 + (ry-by)^2)`, supplied here as a value since a square
root of a rational need not be rational), the ball position, and the four
action components. -/
structure TaskInput where
  dribbling_count : ℕ
  dribbling : Bool
  timestep : ℕ
  max_timesteps : ℕ
  dist : ℚ
  ballX : ℚ
  ballY : ℚ
  a0 : ℚ
  a1 : ℚ
  a2 : ℚ
  a3 : ℚ
deriving DecidableEq

/-- `RoboCupCollect.task_logic` (collect.py lines 72-117), returning
`(step_reward, done, got_reward)`.  The write `aux_state.kick_cooldown = 0`
touches no value returned here and is dropped.  Mirrors the source order:
base reward by cases, action-magnitude term, then the out-of-bounds
override (guarded by `not done`) and the time-limit override (unguarded). -/
def task_logic (config : CollectConfig) (inp : TaskInput) : ℚ × Bool × Bool :=
  let done_dribbled : Bool := decide (inp.dribbling_count ≥ config.dribble_count_done)
  let done := done_dribbled
  let got_reward := done_dribbled
  let step_reward := config.survival_reward
  let step_reward :=
    if done then
      step_reward + config.done_reward_additive +
        config.done_reward_coeff * config.done_reward_exp_base ^ inp.timestep
    else if inp.dribbling && !done_dribbled then
      step_reward + config.dribbling_reward
    else
      step_reward + config.distance_to_ball_coeff * inp.dist
  let step_reward := step_reward + config.move_reward *
    ((inp.a0 ^ 2 + inp.a1 ^ 2) + config.turn_penalty * inp.a2 ^ 2 + inp.a3 ^ 2)
  let oob : Bool := decide (inp.ballX < FIELD_MIN_X) || decide (inp.ballX > FIELD_MAX_X) ||
    decide (inp.ballY < FIELD_MIN_Y) || decide (inp.ballY > FIELD_MAX_Y)
  let step_reward := if !done && oob then config.ball_out_of_bounds_reward else step_reward
  let done := if !done && oob then true else done
  let step_reward := if inp.timestep > inp.max_timesteps then (0 : ℚ) else step_reward
  let done := if inp.timestep > inp.max_timesteps then true else done
  (step_reward, done, got_reward)

lemma left_clip_y (s : BallVec) : (left_clip s).y = s.y := by
  unfold left_clip; split_ifs <;> rfl

lemma left_clip_dy (s : BallVec) : (left_clip s).dy = s.dy := by
  unfold left_clip; split_ifs <;> rfl

lemma right_clip_y (s : BallVec) : (right_clip s).y = s.y := by
  unfold right_clip; split_ifs <;> rfl

lemma right_clip_dy (s : BallVec) : (right_clip s).dy = s.dy := by
  unfold right_clip; split_ifs <;> rfl

lemma down_clip_x (s : BallVec) : (down_clip s).x = s.x := by
  unfold down_clip; split_ifs <;> rfl

lemma down_clip_dx (s : BallVec) : (down_clip s).dx = s.dx := by
  unfold down_clip; split_ifs <;> rfl

lemma up_clip_x (s : BallVec) : (up_clip s).x = s.x := by
  unfold up_clip; split_ifs <;> rfl

lemma up_clip_dx (s : BallVec) : (up_clip s).dx = s.dx := by
  unfold up_clip; split_ifs <;> rfl

lemma total_clip_x (s : BallVec) : (total_clip s).x = s.x := rfl

lemma total_clip_y (s : BallVec) : (total_clip s).y = s.y := rfl

lemma total_clip_dx (s : BallVec) : (total_clip s).dx = min (max s.dx (-1)) 1 := rfl

lemma total_clip_dy (s : BallVec) : (total_clip s).dy = min (max s.dy (-1)) 1 := rfl

lemma left_clip_self (s : BallVec) (h : ¬ s.x ≤ FIELD_MIN_X + 1) : left_clip s = s := by
  unfold left_clip; rw [if_neg h]

lemma right_clip_self (s : BallVec) (h : ¬ s.x ≥ FIELD_MAX_X - 1) : right_clip s = s := by
  unfold right_clip; rw [if_neg h]

lemma down_clip_self (s : BallVec) (h : ¬ s.y ≤ FIELD_MIN_Y + 1) : down_clip s = s := by
  unfold down_clip; rw [if_neg h]

lemma up_clip_self (s : BallVec) (h : ¬ s.y ≥ FIELD_MAX_Y - 1) : up_clip s = s := by
  unfold up_clip; rw [if_neg h]

lemma left_clip_dx_ge (s : BallVec) (h : s.x ≤ FIELD_MIN_X + 1) :
    -(3/10) ≤ (left_clip s).dx := by
  unfold left_clip; rw [if_pos h]; split_ifs <;> exact le_max_right _ _

lemma right_clip_dx_ge (s : BallVec) (h : -(3/10) ≤ s.dx) :
    -(3/10) ≤ (right_clip s).dx := by
  unfold right_clip; split_ifs <;> simp_all [le_min_iff] <;> norm_num

lemma right_clip_dx_le (s : BallVec) (h : s.x ≥ FIELD_MAX_X - 1) :
    (right_clip s).dx ≤ 3/10 := by
  unfold right_clip; rw [if_pos h]; split_ifs <;> exact min_le_right _ _

lemma left_clip_x_clamp (s : BallVec) (h1 : s.x ≤ FIELD_MIN_X + 1) (h2 : s.dx < 0) :
    (left_clip s).x = FIELD_MIN_X + 1 := by
  unfold left_clip; rw [if_pos h1, if_pos h2]

lemma right_clip_x_clamp (s : BallVec) (h1 : s.x ≥ FIELD_MAX_X - 1) (h2 : s.dx > 0) :
    (right_clip s).x = FIELD_MAX_X - 1 := by
  unfold right_clip; rw [if_pos h1, if_pos h2]

lemma right_clip_x_eq (s : BallVec) (h : s.x < FIELD_MAX_X - 1) : (right_clip s).x = s.x := by
  unfold right_clip; rw [if_neg (by exact not_le.mpr h)]

lemma down_clip_dy_ge (s : BallVec) (h : s.y ≤ FIELD_MIN_Y + 1) :
    -(3/10) ≤ (down_clip s).dy := by
  unfold down_clip; rw [if_pos h]; split_ifs <;> exact le_max_right _ _

lemma up_clip_dy_ge (s : BallVec) (h : -(3/10) ≤ s.dy) :
    -(3/10) ≤ (up_clip s).dy := by
  unfold up_clip; split_ifs <;> simp_all [le_min_iff] <;> norm_num

lemma up_clip_dy_le (s : BallVec) (h : s.y ≥ FIELD_MAX_Y - 1) :
    (up_clip s).dy ≤ 3/10 := by
  unfold up_clip; rw [if_pos h]; split_ifs <;> exact min_le_right _ _

lemma down_clip_y_clamp (s : BallVec) (h1 : s.y ≤ FIELD_MIN_Y + 1) (h2 : s.dy < 0) :
    (down_clip s).y = FIELD_MIN_Y + 1 := by
  unfold down_clip; rw [if_pos h1, if_pos h2]

lemma up_clip_y_clamp (s : BallVec) (h1 : s.y ≥ FIELD_MAX_Y - 1) (h2 : s.dy > 0) :
    (up_clip s).y = FIELD_MAX_Y - 1 := by
  unfold up_clip; rw [if_pos h1, if_pos h2]

lemma up_clip_y_eq (s : BallVec) (h : s.y < FIELD_MAX_Y - 1) : (up_clip s).y = s.y := by
  unfold up_clip; rw [if_neg (by exact not_le.mpr h)]

lemma total_clip_dx_mem (s : BallVec) :
    -1 ≤ (total_clip s).dx ∧ (total_clip s).dx ≤ 1 := by
  rw [total_clip_dx]
  constructor
  · exact le_min (le_max_right _ _) (by norm_num)
  · exact min_le_right _ _

lemma total_clip_dy_mem (s : BallVec) :
    -1 ≤ (total_clip s).dy ∧ (total_clip s).dy ≤ 1 := by
  rw [total_clip_dy]
  constructor
  · exact le_min (le_max_right _ _) (by norm_num)
  · exact min_le_right _ _

lemma total_clip_dx_ge (s : BallVec) (h : -(3/10) ≤ s.dx) : -(3/10) ≤ (total_clip s).dx := by
  rw [total_clip_dx]
  exact le_min (le_trans h (le_max_left _ _)) (by norm_num)

lemma total_clip_dx_le (s : BallVec) (h : s.dx ≤ 3/10) : (total_clip s).dx ≤ 3/10 := by
  rw [total_clip_dx]
  refine min_le_of_left_le (max_le h (by norm_num))

lemma total_clip_dy_ge (s : BallVec) (h : -(3/10) ≤ s.dy) : -(3/10) ≤ (total_clip s).dy := by
  rw [total_clip_dy]
  exact le_min (le_trans h (le_max_left _ _)) (by norm_num)

lemma total_clip_dy_le (s : BallVec) (h : s.dy ≤ 3/10) : (total_clip s).dy ≤ 3/10 := by
  rw [total_clip_dy]
  refine min_le_of_left_le (max_le h (by norm_num))

/-- C10: after `task_reset` both ball-velocity components lie in `[-1, 1]`;
within the 1.0 buffer of a field edge the velocity component toward that
edge is clipped to magnitude at most `0.3`; and if the ball was moving
toward that edge its position on that axis is clamped to the buffer
boundary. -/
theorem task_reset_clips_ball (s : BallVec) :
    (-1 ≤ (task_reset s).dx ∧ (task_reset s).dx ≤ 1 ∧
     -1 ≤ (task_reset s).dy ∧ (task_reset s).dy ≤ 1) ∧
    (s.x ≤ FIELD_MIN_X + 1 → -(3/10) ≤ (task_reset s).dx) ∧
    (s.x ≥ FIELD_MAX_X - 1 → (task_reset s).dx ≤ 3/10) ∧
    (s.y ≤ FIELD_MIN_Y + 1 → -(3/10) ≤ (task_reset s).dy) ∧
    (s.y ≥ FIELD_MAX_Y - 1 → (task_reset s).dy ≤ 3/10) ∧
    (s.x ≤ FIELD_MIN_X + 1 → s.dx < 0 → (task_reset s).x = FIELD_MIN_X + 1) ∧
    (s.x ≥ FIELD_MAX_X - 1 → s.dx > 0 → (task_reset s).x = FIELD_MAX_X - 1) ∧
    (s.y ≤ FIELD_MIN_Y + 1 → s.dy < 0 → (task_reset s).y = FIELD_MIN_Y + 1) ∧
    (s.y ≥ FIELD_MAX_Y - 1 → s.dy > 0 → (task_reset s).y = FIELD_MAX_Y - 1) := by
  unfold task_reset
  have ht_y : (right_clip (left_clip s)).y = s.y := by rw [right_clip_y, left_clip_y]
  have ht_dy : (right_clip (left_clip s)).dy = s.dy := by rw [right_clip_dy, left_clip_dy]
  refine ⟨⟨(total_clip_dx_mem _).1, (total_clip_dx_mem _).2,
          (total_clip_dy_mem _).1, (total_clip_dy_mem _).2⟩,
         ?_, ?_, ?_, ?_, ?_, ?_, ?_, ?_⟩
  · intro h
    apply total_clip_dx_ge
    rw [up_clip_dx, down_clip_dx]
    exact right_clip_dx_ge _ (left_clip_dx_ge s h)
  · intro h
    apply total_clip_dx_le
    rw [up_clip_dx, down_clip_dx]
    have hl : left_clip s = s := left_clip_self s
      (by norm_num [FIELD_MIN_X, FIELD_MAX_X, FIELD_SCALE] at h ⊢; linarith)
    rw [hl]
    exact right_clip_dx_le s h
  · intro h
    apply total_clip_dy_ge
    apply up_clip_dy_ge
    apply down_clip_dy_ge
    rw [ht_y]; exact h
  · intro h
    apply total_clip_dy_le
    have h2 : down_clip (right_clip (left_clip s)) = right_clip (left_clip s) :=
      down_clip_self _
        (by rw [ht_y]; norm_num [FIELD_MIN_Y, FIELD_MAX_Y, FIELD_SCALE] at h ⊢; linarith)
    rw [h2]
    apply up_clip_dy_le
    rw [ht_y]; exact h
  · intro h1 h2
    rw [total_clip_x, up_clip_x, down_clip_x]
    have hc := left_clip_x_clamp s h1 h2
    rw [right_clip_x_eq _ (by rw [hc]; norm_num [FIELD_MIN_X, FIELD_MAX_X, FIELD_SCALE])]
    exact hc
  · intro h1 h2
    rw [total_clip_x, up_clip_x, down_clip_x]
    have hl : left_clip s = s := left_clip_self s
      (by norm_num [FIELD_MIN_X, FIELD_MAX_X, FIELD_SCALE] at h1 ⊢; linarith)
    rw [hl]
    exact right_clip_x_clamp s h1 h2
  · intro h1 h2
    rw [total_clip_y]
    have hd := down_clip_y_clamp (right_clip (left_clip s))
      (by rw [ht_y]; exact h1) (by rw [ht_dy]; exact h2)
    rw [up_clip_y_eq _ (by rw [hd]; norm_num [FIELD_MIN_Y, FIELD_MAX_Y, FIELD_SCALE])]
    exact hd
  · intro h1 h2
    rw [total_clip_y]
    have hdn : down_clip (right_clip (left_clip s)) = right_clip (left_clip s) :=
      down_clip_self _
        (by rw [ht_y]; norm_num [FIELD_MIN_Y, FIELD_MAX_Y, FIELD_SCALE] at h1 ⊢; linarith)
    rw [hdn]
    exact up_clip_y_clamp _ (by rw [ht_y]; exact h1) (by rw [ht_dy]; exact h2)

/-- Witness for `task_reset_clips_ball` at a concrete state inside the left
and bottom buffers and moving toward both edges. -/
theorem task_reset_clips_ball_witness :
    ((-3/2 : ℚ) ≤ FIELD_MIN_X + 1 ∧ (-2 : ℚ) < 0) ∧
    (task_reset ⟨-3/2, -3/2, -2, -2⟩).x = FIELD_MIN_X + 1 ∧
    (task_reset ⟨-3/2, -3/2, -2, -2⟩).y = FIELD_MIN_Y + 1 ∧
    -(3/10) ≤ (task_reset ⟨-3/2, -3/2, -2, -2⟩).dx ∧
    -1 ≤ (task_reset ⟨-3/2, -3/2, -2, -2⟩).dy :=
  ⟨⟨by norm_num [FIELD_MIN_X, FIELD_SCALE], by norm_num⟩,
   (task_reset_clips_ball ⟨-3/2, -3/2, -2, -2⟩).2.2.2.2.2.1
     (by norm_num [FIELD_MIN_X, FIELD_SCALE]) (by norm_num),
   (task_reset_clips_ball ⟨-3/2, -3/2, -2, -2⟩).2.2.2.2.2.2.2.1
     (by norm_num [FIELD_MIN_Y, FIELD_SCALE]) (by norm_num),
   (task_reset_clips_ball ⟨-3/2, -3/2, -2, -2⟩).2.1
     (by norm_num [FIELD_MIN_X, FIELD_SCALE]),
   (task_reset_clips_ball ⟨-3/2, -3/2, -2, -2⟩).1.2.2.1⟩

/-- Config for the C2 counterexample (an admissible parameter choice:
`done_reward_exp_base = 1`, zero action coefficients). -/
def c2cfg : CollectConfig := ⟨100, 1, 0, 500, 1, -100, 1/2, -(1/10), 0, 0⟩

/-- Input for the C2 counterexample: dribble completion reached on a tick
whose timestep already exceeds `max_timesteps`. -/
def c2inp : TaskInput := ⟨100, true, 301, 300, 0, 0, 0, 0, 0, 0, 0⟩

/-- C2 counterexample: on a call with `dribbling_count ≥ dribble_count_done`
but `timestep > max_timesteps`, the returned reward is `0`, not
`survival_reward + done_reward_additive + done_reward_coeff *
done_reward_exp_base ^ timestep` plus the action term, because the
time-limit override in the source is not guarded by `not done`. -/
theorem task_logic_done_reward_cex :
    c2inp.dribbling_count ≥ c2cfg.dribble_count_done ∧
    (task_logic c2cfg c2inp).1 = 0 ∧
    (task_logic c2cfg c2inp).1 ≠
      c2cfg.survival_reward + c2cfg.done_reward_additive +
      c2cfg.done_reward_coeff * c2cfg.done_reward_exp_base ^ c2inp.timestep +
      c2cfg.move_reward * ((c2inp.a0 ^ 2 + c2inp.a1 ^ 2) +
        c2cfg.turn_penalty * c2inp.a2 ^ 2 + c2inp.a3 ^ 2) := by
  refine ⟨by norm_num [c2cfg, c2inp], ?_, ?_⟩ <;>
    norm_num [task_logic, c2cfg, c2inp, FIELD_MIN_X, FIELD_MAX_X, FIELD_MIN_Y,
      FIELD_MAX_Y, FIELD_SCALE]

/-- C2 (amended): `done` and `got_reward` are both true exactly when
`dribbling_count ≥ dribble_count_done`, and — provided the timestep does not
exceed the configured maximum — in that case the step reward equals
`survival_reward + done_reward_additive + done_reward_coeff *
done_reward_exp_base ^ timestep` plus the action-magnitude term. -/
theorem task_logic_done_reward (cfg : CollectConfig) (inp : TaskInput) :
    (((task_logic cfg inp).2.1 = true ∧ (task_logic cfg inp).2.2 = true) ↔
      inp.dribbling_count ≥ cfg.dribble_count_done) ∧
    (inp.timestep ≤ inp.max_timesteps →
     inp.dribbling_count ≥ cfg.dribble_count_done →
     (task_logic cfg inp).1 =
       cfg.survival_reward + cfg.done_reward_additive +
       cfg.done_reward_coeff * cfg.done_reward_exp_base ^ inp.timestep +
       cfg.move_reward * ((inp.a0 ^ 2 + inp.a1 ^ 2) +
         cfg.turn_penalty * inp.a2 ^ 2 + inp.a3 ^ 2)) := by
  constructor
  · by_cases hd : inp.dribbling_count ≥ cfg.dribble_count_done <;>
      simp [task_logic, hd]
  · intro ht hd
    have htl : ¬ inp.timestep > inp.max_timesteps := not_lt.mpr ht
    simp [task_logic, hd, htl]

/-- Witness for `task_logic_done_reward` at a concrete completed dribble
within the time limit. -/
theorem task_logic_done_reward_witness :
    ((task_logic c2cfg ⟨100, true, 3, 300, 0, 0, 0, 0, 0, 0, 0⟩).2.1 = true ∧
     (task_logic c2cfg ⟨100, true, 3, 300, 0, 0, 0, 0, 0, 0, 0⟩).2.2 = true) ∧
    (task_logic c2cfg ⟨100, true, 3, 300, 0, 0, 0, 0, 0, 0, 0⟩).1 =
      c2cfg.survival_reward + c2cfg.done_reward_additive +
      c2cfg.done_reward_coeff * c2cfg.done_reward_exp_base ^ (3 : ℕ) +
      c2cfg.move_reward * (((0 : ℚ) ^ 2 + (0 : ℚ) ^ 2) +
        c2cfg.turn_penalty * (0 : ℚ) ^ 2 + (0 : ℚ) ^ 2) :=
  ⟨(task_logic_done_reward c2cfg ⟨100, true, 3, 300, 0, 0, 0, 0, 0, 0, 0⟩).1.mpr
     (by decide),
   (task_logic_done_reward c2cfg ⟨100, true, 3, 300, 0, 0, 0, 0, 0, 0, 0⟩).2
     (by decide) (by decide)⟩

/-- Config for the C3 counterexample. -/
def c3cfg : CollectConfig := ⟨100, 1, 0, 500, 1, -100, 1/2, -(1/10), 0, 0⟩

/-- Input for the C3 counterexample: ball beyond `FIELD_MAX_X`, no dribble
completion, timestep past the maximum. -/
def c3inp : TaskInput := ⟨0, false, 301, 300, 0, 3, 0, 0, 0, 0, 0⟩

/-- C3 counterexample: a call with the ball strictly out of bounds and no
dribble completion returns reward `0` rather than the out-of-bounds penalty
when `timestep > max_timesteps`, because the time-limit override replaces
the out-of-bounds reward. -/
theorem task_logic_oob_cex :
    c3inp.dribbling_count < c3cfg.dribble_count_done ∧
    c3inp.ballX > FIELD_MAX_X ∧
    (task_logic c3cfg c3inp).2.1 = true ∧
    (task_logic c3cfg c3inp).1 ≠ c3cfg.ball_out_of_bounds_reward := by
  refine ⟨by norm_num [c3cfg, c3inp], ?_, ?_, ?_⟩ <;>
    norm_num [task_logic, c3cfg, c3inp, FIELD_MIN_X, FIELD_MAX_X, FIELD_MIN_Y,
      FIELD_MAX_Y, FIELD_SCALE]

/-- C3 (amended): when dribble completion has not triggered, the ball lies
strictly outside a field bound, and the timestep does not exceed the
configured maximum, `task_logic` returns `done = true` with reward exactly
the configured out-of-bounds penalty, replacing the base reward. -/
theorem task_logic_oob_override (cfg : CollectConfig) (inp : TaskInput)
    (hnd : inp.dribbling_count < cfg.dribble_count_done)
    (hoob : inp.ballX < FIELD_MIN_X ∨ inp.ballX > FIELD_MAX_X ∨
            inp.ballY < FIELD_MIN_Y ∨ inp.ballY > FIELD_MAX_Y)
    (ht : inp.timestep ≤ inp.max_timesteps) :
    (task_logic cfg inp).2.1 = true ∧
    (task_logic cfg inp).1 = cfg.ball_out_of_bounds_reward := by
  have hdd : ¬ inp.dribbling_count ≥ cfg.dribble_count_done := not_le.mpr hnd
  have htl : ¬ inp.timestep > inp.max_timesteps := not_lt.mpr ht
  have hoobB : (decide (inp.ballX < FIELD_MIN_X) || decide (inp.ballX > FIELD_MAX_X) ||
      decide (inp.ballY < FIELD_MIN_Y) || decide (inp.ballY > FIELD_MAX_Y)) = true := by
    rcases hoob with h | h | h | h <;> simp [h]
  simp [task_logic, hdd, htl, hoobB]

/-- Witness for `task_logic_oob_override` with the ball beyond the right
field bound inside the time limit. -/
theorem task_logic_oob_override_witness :
    (task_logic c3cfg ⟨0, false, 3, 300, 0, 3, 0, 0, 0, 0, 0⟩).2.1 = true ∧
    (task_logic c3cfg ⟨0, false, 3, 300, 0, 3, 0, 0, 0, 0, 0⟩).1 =
      c3cfg.ball_out_of_bounds_reward :=
  task_logic_oob_override c3cfg ⟨0, false, 3, 300, 0, 3, 0, 0, 0, 0, 0⟩
    (by norm_num [c3cfg]) (by right; left; norm_num [FIELD_MAX_X, FIELD_SCALE])
    (by norm_num)

/-- Config for the C4 counterexample. -/
def c4cfg : CollectConfig := ⟨5, 1, 1, 3, 2, -100, 2, -(1/10), 0, 0⟩

/-- Input for the C4 counterexample: dribble completion on a tick past the
time limit. -/
def c4inp : TaskInput := ⟨7, true, 4, 3, 0, 0, 0, 0, 0, 0, 0⟩

/-- C4 counterexample: the time-limit check in the source is not guarded by
`not done`; a step that terminates via dribble completion has its terminal
bonus replaced by `0` when the timestep also exceeds the maximum, so the
claimed priority of dribble-done over timeout fails. -/
theorem task_logic_priority_cex :
    c4inp.dribbling_count ≥ c4cfg.dribble_count_done ∧
    c4inp.timestep > c4inp.max_timesteps ∧
    (task_logic c4cfg c4inp).1 = 0 ∧
    (task_logic c4cfg c4inp).1 ≠
      c4cfg.survival_reward + c4cfg.done_reward_additive +
      c4cfg.done_reward_coeff * c4cfg.done_reward_exp_base ^ c4inp.timestep +
      c4cfg.move_reward * ((c4inp.a0 ^ 2 + c4inp.a1 ^ 2) +
        c4cfg.turn_penalty * c4inp.a2 ^ 2 + c4inp.a3 ^ 2) := by
  refine ⟨by norm_num [c4cfg, c4inp], by norm_num [c4inp], ?_, ?_⟩ <;>
    norm_num [task_logic, c4cfg, c4inp, FIELD_MIN_X, FIELD_MAX_X, FIELD_MIN_Y,
      FIELD_MAX_Y, FIELD_SCALE]

/-- C4 (amended): dribble completion takes priority over the out-of-bounds
override (which fires only when `done` is not already set, so the terminal
bonus survives an out-of-bounds ball within the time limit), but the
time-limit override applies unconditionally: whenever `timestep >
max_timesteps` the call returns `done = true` with reward `0`, even when
dribble completion also fired. -/
theorem task_logic_priority (cfg : CollectConfig) (inp : TaskInput) :
    (inp.dribbling_count ≥ cfg.dribble_count_done →
     inp.timestep ≤ inp.max_timesteps →
     (task_logic cfg inp).2.1 = true ∧
     (task_logic cfg inp).1 =
       cfg.survival_reward + cfg.done_reward_additive +
       cfg.done_reward_coeff * cfg.done_reward_exp_base ^ inp.timestep +
       cfg.move_reward * ((inp.a0 ^ 2 + inp.a1 ^ 2) +
         cfg.turn_penalty * inp.a2 ^ 2 + inp.a3 ^ 2)) ∧
    (inp.timestep > inp.max_timesteps →
     (task_logic cfg inp).2.1 = true ∧ (task_logic cfg inp).1 = 0) := by
  constructor
  · intro hd ht
    have htl : ¬ inp.timestep > inp.max_timesteps := not_lt.mpr ht
    refine ⟨by simp [task_logic, hd, htl], ?_⟩
    simp [task_logic, hd, htl]
  · intro ht
    exact ⟨by simp [task_logic, ht], by simp [task_logic, ht]⟩

/-- Witness for `task_logic_priority`: dribble completion with the ball out
of bounds still pays the terminal bonus (first part), and a separate input
past the time limit is zeroed (second part). -/
theorem task_logic_priority_witness :
    ((task_logic c4cfg ⟨7, true, 2, 3, 0, 9, 0, 0, 0, 0, 0⟩).2.1 = true ∧
     (task_logic c4cfg ⟨7, true, 2, 3, 0, 9, 0, 0, 0, 0, 0⟩).1 =
       c4cfg.survival_reward + c4cfg.done_reward_additive +
       c4cfg.done_reward_coeff * c4cfg.done_reward_exp_base ^ (2 : ℕ) +
       c4cfg.move_reward * (((0 : ℚ) ^ 2 + (0 : ℚ) ^ 2) +
         c4cfg.turn_penalty * (0 : ℚ) ^ 2 + (0 : ℚ) ^ 2)) ∧
    ((task_logic c4cfg ⟨0, false, 5, 3, 0, 0, 0, 0, 0, 0, 0⟩).2.1 = true ∧
     (task_logic c4cfg ⟨0, false, 5, 3, 0, 0, 0, 0, 0, 0, 0⟩).1 = 0) :=
  ⟨(task_logic_priority c4cfg ⟨7, true, 2, 3, 0, 9, 0, 0, 0, 0, 0⟩).1
     (by decide) (by decide),
   (task_logic_priority c4cfg ⟨0, false, 5, 3, 0, 0, 0, 0, 0, 0, 0⟩).2 (by decide)⟩

end Collect

namespace RC

/-- `FRICTION_LINEAR_REGION = 0.1` (robocup.py line 256). -/
def FRICTION_LINEAR_REGION : ℚ := 1 / 10

/-- `RoboCup._applyBallFriction` (robocup.py lines 253-263) as a function of
the ball's mass and velocity components.  The source computes `ball_speed =
np.sqrt (vx ** 2 + vy ** 2)`; a square root of a rational need not be
rational, so the speed is passed as the parameter `speed`, pinned down in
the theorems by `0 ≤ speed` and `speed ^ 2 = vx ^ 2 + vy ^ 2`.  Returns the
force vector handed to `ball.ApplyForce`. -/
def frictionForce (mass vx vy speed : ℚ) : ℚ × ℚ :=
  let ax := -(1/2) * vx / FRICTION_LINEAR_REGION
  let ay := -(1/2) * vy / FRICTION_LINEAR_REGION
  let ax := if speed > FRICTION_LINEAR_REGION then ax * FRICTION_LINEAR_REGION / speed else ax
  let ay := if speed > FRICTION_LINEAR_REGION then ay * FRICTION_LINEAR_REGION / speed else ay
  (mass * ax, mass * ay)

/-- Squared Euclidean norm of a planar force vector. -/
def magSq (f : ℚ × ℚ) : ℚ := f.1 ^ 2 + f.2 ^ 2

lemma frictionForce_sat (m vx vy s : ℚ) (hs : FRICTION_LINEAR_REGION < s)
    (h : s ^ 2 = vx ^ 2 + vy ^ 2) :
    magSq (frictionForce m vx vy s) = (m * (1/2)) ^ 2 := by
  have hs0 : s ≠ 0 := by
    intro h0
    rw [h0] at hs
    norm_num [FRICTION_LINEAR_REGION] at hs
  simp only [magSq, frictionForce, FRICTION_LINEAR_REGION] at *
  rw [if_pos hs, if_pos hs]
  field_simp
  linear_combination (-400) * m ^ 2 * h

lemma frictionForce_sat_dir (m vx vy s : ℚ) (hm : 0 < m)
    (hs : FRICTION_LINEAR_REGION < s) :
    ∃ c : ℚ, 0 < c ∧ frictionForce m vx vy s = (-(c * vx), -(c * vy)) := by
  have hsp : 0 < s := lt_trans (by norm_num [FRICTION_LINEAR_REGION]) hs
  refine ⟨m / (2 * s), div_pos hm (by linarith), ?_⟩
  simp only [frictionForce, FRICTION_LINEAR_REGION] at *
  rw [if_pos hs, if_pos hs]
  refine Prod.ext ?_ ?_ <;> (show _ = _) <;> field_simp <;> ring

lemma frictionForce_lin (m vx vy s : ℚ) (hs : ¬ s > FRICTION_LINEAR_REGION)
    (h : s ^ 2 = vx ^ 2 + vy ^ 2) :
    magSq (frictionForce m vx vy s) = 25 * m ^ 2 * s ^ 2 := by
  simp only [magSq, frictionForce, FRICTION_LINEAR_REGION] at *
  rw [if_neg hs, if_neg hs]
  field_simp
  linear_combination (-100) * m ^ 2 * h

/-- C5: at two speeds both above the linear region bound the applied
friction force magnitudes agree (saturated at `mass * 0.5`, directed
opposite the velocity); at two speeds inside the linear region the
magnitude is strictly increasing in the speed.  Magnitudes are compared
squared to stay in `ℚ`. -/
theorem friction_saturation_monotone
    (mass vx1 vy1 s1 vx2 vy2 s2 : ℚ) (hm : 0 < mass)
    (h1 : s1 ^ 2 = vx1 ^ 2 + vy1 ^ 2) (h1n : 0 ≤ s1)
    (h2 : s2 ^ 2 = vx2 ^ 2 + vy2 ^ 2) (h2n : 0 ≤ s2)
    (h12 : s1 < s2) :
    (FRICTION_LINEAR_REGION < s1 →
      magSq (frictionForce mass vx1 vy1 s1) = (mass * (1/2)) ^ 2 ∧
      magSq (frictionForce mass vx2 vy2 s2) = (mass * (1/2)) ^ 2 ∧
      (∃ c : ℚ, 0 < c ∧ frictionForce mass vx2 vy2 s2 = (-(c * vx2), -(c * vy2)))) ∧
    (0 < s1 → s2 < FRICTION_LINEAR_REGION →
      magSq (frictionForce mass vx1 vy1 s1) < magSq (frictionForce mass vx2 vy2 s2)) := by
  constructor
  · intro hr1
    have hr2 : FRICTION_LINEAR_REGION < s2 := lt_trans hr1 h12
    exact ⟨frictionForce_sat mass vx1 vy1 s1 hr1 h1,
           frictionForce_sat mass vx2 vy2 s2 hr2 h2,
           frictionForce_sat_dir mass vx2 vy2 s2 hm hr2⟩
  · intro hp1 hr2
    have hn1 : ¬ s1 > FRICTION_LINEAR_REGION := by
      push_neg
      exact le_of_lt (lt_trans h12 hr2)
    have hn2 : ¬ s2 > FRICTION_LINEAR_REGION := by
      push_neg
      exact le_of_lt hr2
    rw [frictionForce_lin mass vx1 vy1 s1 hn1 h1,
        frictionForce_lin mass vx2 vy2 s2 hn2 h2]
    have hss : s1 ^ 2 < s2 ^ 2 := by nlinarith
    have h25 : (0:ℚ) < 25 * mass ^ 2 := by positivity
    exact (mul_lt_mul_left h25).mpr hss

/-- Witness for `friction_saturation_monotone`: speeds `3/5` and `1` above
the linear region, mass `1`. -/
theorem friction_saturation_monotone_witness :
    magSq (frictionForce 1 (3/5) 0 (3/5)) = ((1:ℚ) * (1/2)) ^ 2 ∧
    magSq (frictionForce 1 0 1 1) = ((1:ℚ) * (1/2)) ^ 2 :=
  ⟨((friction_saturation_monotone 1 (3/5) 0 (3/5) 0 1 1 (by norm_num)
      (by norm_num) (by norm_num) (by norm_num) (by norm_num) (by norm_num)).1
      (by norm_num [FRICTION_LINEAR_REGION])).1,
   ((friction_saturation_monotone 1 (3/5) 0 (3/5) 0 1 1 (by norm_num)
      (by norm_num) (by norm_num) (by norm_num) (by norm_num) (by norm_num)).1
      (by norm_num [FRICTION_LINEAR_REGION])).2.1⟩

/-- C6: with zero velocity (hence zero speed, since `np.sqrt 0 = 0`) the
friction force is the zero vector, and any speed satisfying the guard of
the dividing branch (`ball_speed > FRICTION_LINEAR_REGION`) is nonzero, so
the division by `ball_speed` never divides by zero. -/
theorem friction_zero_velocity (m s : ℚ) (hs : FRICTION_LINEAR_REGION < s) :
    frictionForce m 0 0 0 = (0, 0) ∧ s ≠ 0 := by
  constructor
  · norm_num [frictionForce, FRICTION_LINEAR_REGION]
  · intro h0
    rw [h0] at hs
    norm_num [FRICTION_LINEAR_REGION] at hs

/-- Witness for `friction_zero_velocity` at mass `7` and guard speed `1`. -/
theorem friction_zero_velocity_witness :
    frictionForce 7 0 0 0 = (0, 0) ∧ (1 : ℚ) ≠ 0 :=
  friction_zero_velocity 7 1 (by norm_num [FRICTION_LINEAR_REGION])

/-- The state of `robocup.py` relevant to the capture machinery and `step`:
the two bodies' kinematic state, the module-level globals `capture`,
`capture_anchor` and `joint` (`jointActive` is `joint is not None`), the
number of joints alive in the `b2World` (`worldJoints`), and the log of
forces applied to the ball (`ballForces`).  The robot's angle is stored as
its heading unit vector `robotHeading = (cos angle, sin angle)` so that the
model stays inside `ℚ`. -/
structure RCState where
  robotPos : ℚ × ℚ
  robotHeading : ℚ × ℚ
  robotVel : ℚ × ℚ
  robotAngVel : ℚ
  ballPos : ℚ × ℚ
  ballVel : ℚ × ℚ
  ballMass : ℚ
  capture : Bool
  captureAnchor : ℚ × ℚ
  jointActive : Bool
  worldJoints : ℕ
  ballForces : List (ℚ × ℚ)
deriving DecidableEq

/-- `RoboCup.shoot` (robocup.py lines 295-302): if the global `joint` is
set, destroy it in the world, clear the global, and apply the force
`(0.1 * cos angle, 0.1 * sin angle)` to the ball; otherwise do nothing. -/
def shoot (s : RCState) : RCState :=
  if s.jointActive then
    { s with jointActive := false,
             worldJoints := s.worldJoints - 1,
             ballForces := ((1/10) * s.robotHeading.1, (1/10) * s.robotHeading.2) ::
               s.ballForces }
  else s

/-- `CollisionDetector.BeginContact` (robocup.py lines 62-83): on a touching
contact whose bodies' userData ids pair the ball (`0`) with the robot (`1`)
in either order and whose robot fixture carries the kicker userData tag,
set the global `capture` flag and record the contact anchor; every other
pairing returns without effect.  The recorded body references are the fixed
ball/robot singletons and are left implicit. -/
def beginContactUpd (touching : Bool) (aId bId : ℤ) (kickerTag : Bool)
    (anchor : ℚ × ℚ) (s : RCState) : RCState :=
  if touching then
    if (aId = 0 ∧ bId = 1) ∨ (aId = 1 ∧ bId = 0) then
      if kickerTag then { s with capture := true, captureAnchor := anchor }
      else s
    else s
  else s

/-- The capture-resolution block of `RoboCup.step` (robocup.py lines
283-289): if the `capture` flag is set, create a weld joint in the world
(the global `joint` is overwritten; a joint it previously pointed to is
not destroyed) and clear the flag. -/
def resolveCapture (s : RCState) : RCState :=
  if s.capture then
    { s with worldJoints := s.worldJoints + 1, jointActive := true, capture := false }
  else s

/-- `RoboCup.reset` (robocup.py lines 304-308) as it affects the capture
machinery: `_destroy` destroys the ball and robot bodies, which destroys
every joint attached to them, emptying the world's joint list; the
module-level globals `capture` and `joint` are not written by `reset`.
The body re-creation performed by `_create` is modelled for C8 in the
`Seeding` namespace and left out here. -/
def resetCapture (s : RCState) : RCState := { s with worldJoints := 0 }

/-- The engine/environment events that drive the capture machinery.
`beginContact` is delivered by the physics engine during `world.Step`;
`stepTick` is the capture-resolution part of `RoboCup.step` that runs right
after `world.Step` returns; `shootCmd` and `resetEnv` are the explicit
commands. -/
inductive RCEvent where
  | beginContact (touching : Bool) (aId bId : ℤ) (kickerTag : Bool) (anchor : ℚ × ℚ)
  | stepTick
  | shootCmd
  | resetEnv
deriving DecidableEq

/-- Apply one event to the state. -/
def applyEvent : RCEvent → RCState → RCState
  | .beginContact touching aId bId kickerTag anchor, s =>
      beginContactUpd touching aId bId kickerTag anchor s
  | .stepTick, s => resolveCapture s
  | .shootCmd, s => shoot s
  | .resetEnv, s => resetCapture s

/-- Run a sequence of events from a state. -/
def runEvents (s : RCState) : List RCEvent → RCState
  | [] => s
  | e :: es => runEvents (applyEvent e s) es

/-- Does the event reach the capture branch of `BeginContact`? -/
def isKickerBallContact : RCEvent → Bool
  | .beginContact touching aId bId kickerTag _ =>
      touching && decide ((aId = 0 ∧ bId = 1) ∨ (aId = 1 ∧ bId = 0)) && kickerTag
  | _ => false

/-- Guard of the amended capture invariant: along the trace, every
kicker/ball begin-contact is delivered while no weld joint is alive. -/
def contactsOnlyWhenFree : RCState → List RCEvent → Bool
  | _, [] => true
  | s, e :: es =>
      (!(isKickerBallContact e) || decide (s.worldJoints = 0)) &&
        contactsOnlyWhenFree (applyEvent e s) es

/-- The state at interpreter start: globals `capture = False`,
`joint = None`, no joints in the world, no forces applied. -/
def initState : RCState :=
  ⟨(0, 0), (1, 0), (0, 0), 0, (0, 0), (0, 0), 1, false, (0, 0), false, 0, []⟩

/-- The trace refuting C1: capture and weld, then a second kicker/ball
begin-contact while the first weld joint is still alive, then a step. -/
def doubleCaptureTrace : List RCEvent :=
  [.beginContact true 0 1 true (0, 0), .stepTick,
   .beginContact true 0 1 true (0, 0), .stepTick]

/-- C1 counterexample: a kicker/ball begin-contact arriving while the
machine is already `Captured` re-arms the `capture` flag, and the next step
creates a second weld joint without destroying the first, so two weld
joints are alive at once and the second contact was not a no-op. -/
theorem capture_single_weld_cex :
    (runEvents initState doubleCaptureTrace).worldJoints = 2 := by decide

lemma applyEvent_joint_inv (e : RCEvent) (s : RCState)
    (hguard : isKickerBallContact e = true → s.worldJoints = 0)
    (hj : s.worldJoints ≤ 1) (hc : s.capture = true → s.worldJoints = 0) :
    (applyEvent e s).worldJoints ≤ 1 ∧
    ((applyEvent e s).capture = true → (applyEvent e s).worldJoints = 0) := by
  cases e with
  | beginContact touching aId bId kickerTag anchor =>
      simp only [applyEvent, beginContactUpd]
      split_ifs with h1 h2 h3
      · have h0 : s.worldJoints = 0 := by
          apply hguard
          simp [isKickerBallContact, h1, h2, h3]
        constructor
        · show s.worldJoints ≤ 1
          omega
        · intro _
          show s.worldJoints = 0
          exact h0
      · exact ⟨hj, hc⟩
      · exact ⟨hj, hc⟩
      · exact ⟨hj, hc⟩
  | stepTick =>
      simp only [applyEvent, resolveCapture]
      split_ifs with h
      · have h0 : s.worldJoints = 0 := hc h
        constructor
        · show s.worldJoints + 1 ≤ 1
          omega
        · intro hcap
          simp at hcap
      · exact ⟨hj, hc⟩
  | shootCmd =>
      simp only [applyEvent, shoot]
      split_ifs with h
      · constructor
        · show s.worldJoints - 1 ≤ 1
          omega
        · intro hcap
          show s.worldJoints - 1 = 0
          have h0 : s.worldJoints = 0 := hc hcap
          omega
      · exact ⟨hj, hc⟩
  | resetEnv =>
      simp only [applyEvent, resetCapture]
      constructor
      · show (0 : ℕ) ≤ 1
        omega
      · intro _
        trivial

lemma runEvents_joint_inv (es : List RCEvent) (s : RCState)
    (hg : contactsOnlyWhenFree s es = true)
    (hj : s.worldJoints ≤ 1) (hc : s.capture = true → s.worldJoints = 0) :
    (runEvents s es).worldJoints ≤ 1 := by
  induction es generalizing s with
  | nil => exact hj
  | cons e es ih =>
      simp only [contactsOnlyWhenFree, Bool.and_eq_true, Bool.or_eq_true,
        Bool.not_eq_eq_eq_not, Bool.not_true, decide_eq_true_eq] at hg
      obtain ⟨h1, h2⟩ := hg
      have hstep := applyEvent_joint_inv e s
        (fun hk => by
          cases h1 with
          | inl h => rw [hk] at h; cases h
          | inr h => exact h)
        hj hc
      exact ih (applyEvent e s) h2 hstep.1 hstep.2

/-- C1 (amended): the `capture` flag turns true only through a kicker/ball
begin-contact; repeating the same kicker/ball contact is idempotent and two
simultaneous contacts followed by a step create exactly one weld joint; and
along every trace in which kicker/ball contacts are delivered only while no
weld joint is alive, at most one weld joint exists at any time.  (The
unguarded case — a kicker/ball begin-contact delivered while a joint is
alive — re-arms `capture` and the next step creates a second joint, as the
counterexample shows.) -/
theorem capture_single_weld :
    (∀ e s, (applyEvent e s).capture = true →
      s.capture = true ∨ isKickerBallContact e = true) ∧
    (∀ e s, isKickerBallContact e = true →
      applyEvent e (applyEvent e s) = applyEvent e s) ∧
    (∀ e e' s, isKickerBallContact e = true → isKickerBallContact e' = true →
      (applyEvent .stepTick (applyEvent e' (applyEvent e s))).worldJoints =
        s.worldJoints + 1) ∧
    (∀ es s, contactsOnlyWhenFree s es = true → s.worldJoints ≤ 1 →
      (s.capture = true → s.worldJoints = 0) →
      (runEvents s es).worldJoints ≤ 1) := by
  refine ⟨?_, ?_, ?_, runEvents_joint_inv⟩
  · intro e s h
    cases e with
    | beginContact touching aId bId kickerTag anchor =>
        simp only [applyEvent, beginContactUpd] at h
        split_ifs at h with h1 h2 h3
        · right
          simp [isKickerBallContact, h1, h2, h3]
        all_goals exact Or.inl h
    | stepTick =>
        left
        simp only [applyEvent, resolveCapture] at h
        split_ifs at h with hcap
        · exact h
    | shootCmd =>
        left
        simp only [applyEvent, shoot] at h
        split_ifs at h <;> exact h
    | resetEnv => exact Or.inl h
  · intro e s hk
    cases e with
    | beginContact touching aId bId kickerTag anchor =>
        simp only [isKickerBallContact, Bool.and_eq_true, decide_eq_true_eq] at hk
        obtain ⟨⟨ht, hid⟩, htag⟩ := hk
        simp [applyEvent, beginContactUpd, ht, hid, htag]
    | stepTick => cases hk
    | shootCmd => cases hk
    | resetEnv => cases hk
  · intro e e' s hk hk'
    cases e with
    | beginContact touching aId bId kickerTag anchor =>
        cases e' with
        | beginContact touching' aId' bId' kickerTag' anchor' =>
            simp only [isKickerBallContact, Bool.and_eq_true, decide_eq_true_eq]
              at hk hk'
            obtain ⟨⟨ht, hid⟩, htag⟩ := hk
            obtain ⟨⟨ht', hid'⟩, htag'⟩ := hk'
            simp [applyEvent, beginContactUpd, resolveCapture,
              ht, hid, htag, ht', hid', htag']
        | stepTick => cases hk'
        | shootCmd => cases hk'
        | resetEnv => cases hk'
    | stepTick => cases hk
    | shootCmd => cases hk
    | resetEnv => cases hk

/-- The trace used by the witness: capture, weld, shoot (freeing the
joint), then a second capture and weld — all contacts delivered while no
joint is alive. -/
def guardedTrace : List RCEvent :=
  [.beginContact true 0 1 true (0, 0), .stepTick, .shootCmd,
   .beginContact true 1 0 true (1, 1), .stepTick]

/-- Witness for `capture_single_weld` on concrete events and the guarded
five-event trace. -/
theorem capture_single_weld_witness :
    (initState.capture = true ∨
      isKickerBallContact (.beginContact true 0 1 true (0, 0)) = true) ∧
    applyEvent (.beginContact true 0 1 true (0, 0))
        (applyEvent (.beginContact true 0 1 true (0, 0)) initState) =
      applyEvent (.beginContact true 0 1 true (0, 0)) initState ∧
    (applyEvent .stepTick
        (applyEvent (.beginContact true 1 0 true (1, 1))
          (applyEvent (.beginContact true 0 1 true (0, 0)) initState))).worldJoints =
      initState.worldJoints + 1 ∧
    (runEvents initState guardedTrace).worldJoints ≤ 1 :=
  ⟨capture_single_weld.1 (.beginContact true 0 1 true (0, 0)) initState (by decide),
   capture_single_weld.2.1 (.beginContact true 0 1 true (0, 0)) initState (by decide),
   capture_single_weld.2.2.1 (.beginContact true 0 1 true (0, 0))
     (.beginContact true 1 0 true (1, 1)) initState (by decide) (by decide),
   capture_single_weld.2.2.2 guardedTrace initState (by decide) (by decide)
     (by decide)⟩

/-- C7: if a weld joint is active, `shoot` destroys it and applies the
force `(0.1 * cos angle, 0.1 * sin angle)` to the ball, leaving the joint
slot free; if no joint is active, `shoot` changes nothing. -/
theorem shoot_spec (s : RCState) :
    (s.jointActive = true →
      shoot s = { s with jointActive := false,
                         worldJoints := s.worldJoints - 1,
                         ballForces := ((1/10) * s.robotHeading.1,
                           (1/10) * s.robotHeading.2) :: s.ballForces }) ∧
    (s.jointActive = false → shoot s = s) := by
  constructor <;> intro h <;> simp [shoot, h]

/-- A captured state used by the `shoot_spec` witness: one joint alive,
robot heading along the positive x-axis. -/
def capturedState : RCState :=
  ⟨(0, 0), (1, 0), (0, 0), 0, (0, 0), (0, 0), 1, false, (0, 0), true, 1, []⟩

/-- Witness for `shoot_spec`: shooting the captured state frees the joint
and applies `(0.1, 0)`; shooting the free initial state is the identity. -/
theorem shoot_spec_witness :
    shoot capturedState =
      { capturedState with jointActive := false,
                           worldJoints := capturedState.worldJoints - 1,
                           ballForces := ((1/10) * capturedState.robotHeading.1,
                             (1/10) * capturedState.robotHeading.2) ::
                             capturedState.ballForces } ∧
    shoot initState = initState :=
  ⟨(shoot_spec capturedState).1 rfl, (shoot_spec initState).2 rfl⟩

/-- The observation tuple gathered at the top of `RoboCup.step` (robocup.py
lines 267-277): robot position, heading, linear velocity, angular velocity,
then ball position and velocity. -/
def observe (s : RCState) :
    (ℚ × ℚ) × (ℚ × ℚ) × (ℚ × ℚ) × ℚ × (ℚ × ℚ) × (ℚ × ℚ) :=
  (s.robotPos, s.robotHeading, s.robotVel, s.robotAngVel, s.ballPos, s.ballVel)

/-- `RoboCup._applyBallFriction` as a state update: the force computed by
`frictionForce` from the ball's velocity is applied to the ball (logged in
`ballForces`; integration happens inside the engine on the next
`world.Step`).  `sqrtFn` stands for `np.sqrt`, applied to the squared
speed. -/
def applyBallFriction (sqrtFn : ℚ → ℚ) (s : RCState) : RCState :=
  let speed := sqrtFn (s.ballVel.1 ^ 2 + s.ballVel.2 ^ 2)
  { s with ballForces :=
      frictionForce s.ballMass s.ballVel.1 s.ballVel.2 speed :: s.ballForces }

/-- `RoboCup.step` (robocup.py lines 265-293): gather the state tuple from
the bodies first, then advance the physics world (`world.Step`, the
external engine, is the parameter `phys`), apply ball friction, resolve a
pending capture, and return the tuple gathered at entry together with
reward `0` and `done = False`. -/
def stepEnv (phys : RCState → RCState) (sqrtFn : ℚ → ℚ) (s : RCState) :
    RCState × ((ℚ × ℚ) × (ℚ × ℚ) × (ℚ × ℚ) × ℚ × (ℚ × ℚ) × (ℚ × ℚ)) × ℚ × Bool :=
  let priorState := observe s
  let s1 := phys s
  let s2 := applyBallFriction sqrtFn s1
  let s3 := resolveCapture s2
  (s3, priorState, 0, false)

/-- C9: for every engine-step function and every state, the observation
returned by `step` is the one gathered before the world is advanced, so the
physical effects of this call (integration, friction, weld creation) show
up only in the state threaded to — and hence the observation returned by —
the next call. -/
theorem step_returns_entry_observation (phys : RCState → RCState)
    (sqrtFn : ℚ → ℚ) (s : RCState) :
    (stepEnv phys sqrtFn s).2.1 = observe s ∧
    (stepEnv phys sqrtFn s).1 = resolveCapture (applyBallFriction sqrtFn (phys s)) ∧
    (stepEnv phys sqrtFn (stepEnv phys sqrtFn s).1).2.1 =
      observe (resolveCapture (applyBallFriction sqrtFn (phys s))) :=
  ⟨rfl, rfl, rfl⟩

end RC

namespace Seeding

/-- A deterministic pseudo-random source: an unbounded stream of raw draws
and a cursor; popping a draw returns the value at the cursor and advances
it. -/
structure RngStream where
  stream : ℕ → ℚ
  pos : ℕ

/-- Pop one draw from a source. -/
def draw (r : RngStream) : ℚ × RngStream :=
  (r.stream r.pos, ⟨r.stream, r.pos + 1⟩)

/-- The random sources visible to `robocup.py`: `self.np_random` (written
by `RoboCup.seed`, robocup.py lines 156-158), the gym `Box` spaces' own
internal source (`spacesRng`), and the numpy module-level global source
(`globalRng`) that `VelocitySpace.sample` (lines 100-101) draws from via
`np.random.randn`. -/
structure EnvRand where
  npRandom : RngStream
  spacesRng : RngStream
  globalRng : RngStream

/-- `RoboCup.seed`: `self.np_random, seed = seeding.np_random(seed)` —
replaces only `npRandom` with a stream derived from the seed value
(`seedFn`); the spaces' sources and the numpy global source are
untouched. -/
def seedEnv (seedFn : ℕ → RngStream) (sd : ℕ) (e : EnvRand) : EnvRand :=
  { e with npRandom := seedFn sd }

/-- `VelocitySpace.sample` for shape `(2,)`:
`self.stdev * np.random.randn(2)` — two draws from the numpy global
source, scaled componentwise by the standard deviations. -/
def velocitySample2 (st1 st2 : ℚ) (g : RngStream) : (ℚ × ℚ) × RngStream :=
  let (u1, g1) := draw g
  let (u2, g2) := draw g1
  ((st1 * u1, st2 * u2), g2)

/-- `VelocitySpace.sample` for shape `(3,)`. -/
def velocitySample3 (st1 st2 st3 : ℚ) (g : RngStream) :
    (ℚ × ℚ × ℚ) × RngStream :=
  let (u1, g1) := draw g
  let (u2, g2) := draw g1
  let (u3, g3) := draw g2
  ((st1 * u1, st2 * u2, st3 * u3), g3)

/-- A 2-dimensional gym `Box.sample`, drawing from the space's own source.
The uniform transform gym applies to the raw draws is internal to the
library and abstracted away; only which source is consumed matters here. -/
def boxSample2 (g : RngStream) : (ℚ × ℚ) × RngStream :=
  let (u1, g1) := draw g
  let (u2, g2) := draw g1
  ((u1, u2), g2)

/-- A 3-dimensional gym `Box.sample`. -/
def boxSample3 (g : RngStream) : (ℚ × ℚ × ℚ) × RngStream :=
  let (u1, g1) := draw g
  let (u2, g2) := draw g1
  let (u3, g3) := draw g2
  ((u1, u2, u3), g3)

/-- The initial conditions sampled by `RoboCup._create` via
`self.observation_space.sample()` (robocup.py line 175): robot pose and
velocities, ball position and velocity. -/
structure SampledObs where
  robotX : ℚ
  robotY : ℚ
  robotH : ℚ
  robotVX : ℚ
  robotVY : ℚ
  robotVH : ℚ
  ballX : ℚ
  ballY : ℚ
  ballVX : ℚ
  ballVY : ℚ
deriving DecidableEq

/-- `RoboCup.reset → _create → self.observation_space.sample()` (robocup.py
lines 149-152, 175, 304-308): the nested Tuple space samples, in order, the
robot `Box` pose (3 dims, space source), the robot `VelocitySpace` with
stdev `[0.5, 0.5, 3.0]` (3 dims, numpy global source), the ball `Box`
position (2 dims, space source), and the ball `VelocitySpace` with stdev
`[2.0, 2.0]` (2 dims, global source).  `self.np_random` is read nowhere in
the sampling path. -/
def resetSample (e : EnvRand) : SampledObs × EnvRand :=
  let (rp, sp1) := boxSample3 e.spacesRng
  let (rv, g1) := velocitySample3 (1/2) (1/2) 3 e.globalRng
  let (bp, sp2) := boxSample2 sp1
  let (bv, g2) := velocitySample2 2 2 g1
  (⟨rp.1, rp.2.1, rp.2.2, rv.1, rv.2.1, rv.2.2, bp.1, bp.2, bv.1, bv.2⟩,
   ⟨e.npRandom, sp2, g2⟩)

/-- The all-zeros stream. -/
def zeroStream : RngStream := ⟨fun _ => 0, 0⟩

/-- The stream whose n-th draw is n, standing for a generic numpy global
source state. -/
def natStream : RngStream := ⟨fun n => (n : ℚ), 0⟩

/-- A seeding function: the stream derived from seed value `sd`. -/
def seedFn0 : ℕ → RngStream := fun sd => ⟨fun _ => (sd : ℚ), 0⟩

/-- Sources at interpreter start for the failing run. -/
def envRand0 : EnvRand := ⟨zeroStream, zeroStream, natStream⟩

/-- C8 (code bug): the initial conditions sampled by `reset` are not a
function of the seeded source.  First part: `resetSample` never reads
`np_random`, so the observation is invariant under replacing it — seeding
cannot influence the sample.  Second part, the failing input evaluated:
`seed(0); reset(); seed(0); reset()` over the global stream `n ↦ n`
returns two different observations, refuting bit-identical
reproducibility (`VelocitySpace.sample` draws from the advancing numpy
global stream, not from the seeded `self.np_random`). -/
theorem seeded_reset_not_deterministic :
    (∀ (e : EnvRand) (r : RngStream),
      (resetSample { e with npRandom := r }).1 = (resetSample e).1) ∧
    (resetSample (seedEnv seedFn0 0 envRand0)).1 ≠
      (resetSample (seedEnv seedFn0 0
        (resetSample (seedEnv seedFn0 0 envRand0)).2)).1 := by
  constructor
  · intro e r
    rfl
  · intro h
    have h4 := congrArg SampledObs.robotVX h
    norm_num [resetSample, seedEnv, envRand0, seedFn0, natStream, zeroStream,
      boxSample3, boxSample2, velocitySample3, velocitySample2, draw] at h4

end Seeding
